import Mathlib

/-!
Verification of the message-translation bot (single source file `gemini.py`).

The development shallowly embeds the Python source: each Python function that
the claims touch becomes a Lean definition with the same name, translated
clause by clause.  External collaborators (the LLM, the TTS SDKs, the chat
SDK, the HTTP transport) are modelled as explicit parameters describing the
outcome of each call, matching the try/except structure of the source.
-/

namespace BotTelegram

/-! ### Python string primitives

The source manipulates Python strings with `strip`, `lower`, `startswith`,
`splitlines` and `split(":", 1)`.  These are embedded over `List Char` so
that every definition reduces in the kernel. -/

/-- Python `str.strip()` whitespace set (ASCII portion: space, tab, newline,
carriage return, vertical tab, form feed). -/
def pyIsSpace (c : Char) : Bool :=
  c = ' ' || c = '\t' || c = '\n' || c = '\r' || c = Char.ofNat 11 || c = Char.ofNat 12

/-- Python `str.strip()`: drop whitespace from both ends. -/
def pyStrip (s : String) : String :=
  String.mk (((s.data.dropWhile pyIsSpace).reverse.dropWhile pyIsSpace).reverse)

/-- Python `str.lower()` (ASCII case folding, which covers the labels the
source matches on). -/
def pyLower (s : String) : String :=
  String.mk (s.data.map Char.toLower)

/-- Python `s.startswith(p)`. -/
def pyStartsWith (s p : String) : Bool :=
  decide (s.data.take p.data.length = p.data)

/-- Helper for Python `str.splitlines()`: accumulate the current line. -/
def splitLinesAux : List Char → List Char → List String
  | [], [] => []
  | [], acc => [String.mk acc.reverse]
  | c :: cs, acc =>
      if c = '\n' then String.mk acc.reverse :: splitLinesAux cs []
      else splitLinesAux cs (c :: acc)

/-- Python `str.splitlines()` (newline separators; no trailing empty line,
empty string gives no lines). -/
def pySplitLines (s : String) : List String :=
  splitLinesAux s.data []

/-- Everything after the first colon of the line: Python
`l.split(":", 1)[1]`.  The source only evaluates this on lines that start
with a label containing a colon, so the colon is always present; on a line
without a colon the Python expression would raise, modelled here as `""`. -/
def afterFirstColonAux : List Char → List Char
  | [] => []
  | c :: cs => if c = ':' then cs else afterFirstColonAux cs

def afterFirstColon (s : String) : String :=
  String.mk (afterFirstColonAux s.data)

/-! ### Translation client (`translate_with_gemini`) -/

/-- The instructional prompt built by `translate_with_gemini` (the f-string
with `text_to_translate` interpolated, then `.strip()`). -/
def prompt_message (text_to_translate : String) : String :=
  pyStrip
    ("\nKamu adalah penerjemah profesional yang ahli dalam Bahasa Indonesia dan Bahasa Korea.\nTugasmu adalah menerjemahkan teks Bahasa Indonesia ke Bahasa Korea yang natural.\nFormat output:\nTeks Korea: [terjemahan_hangul]\nRomanisasi: [terjemahan_romanisasi]\n\nTeks Indonesia: \"" ++ text_to_translate ++ "\"\n")

/-- The line-by-line parse of the raw Gemini response: for each line,
strip it, match the labels `"teks korea:"` / `"romanisasi:"`
case-insensitively, and keep the trimmed text after the first colon
(later matches overwrite earlier ones, as in the source loop). -/
def parseGeminiResponse (raw_response_text : String) : String × String :=
  (pySplitLines raw_response_text).foldl
    (fun acc line =>
      let l := pyStrip line
      if pyStartsWith (pyLower l) "teks korea:" then
        (pyStrip (afterFirstColon l), acc.2)
      else if pyStartsWith (pyLower l) "romanisasi:" then
        (acc.1, pyStrip (afterFirstColon l))
      else acc)
    ("", "")

/-- `translate_with_gemini`.  The LLM is modelled as an oracle
`llm : String → Option String` mapping the prompt to the `.text` of the
response (`none` when `generate_content` raises); `gemini_api_key` says
whether the API key is configured.  The Python function returns
`(korean_text, romanization)` on success and `(None, None)` when any step
raised, embedded as `Option (String × String)`. -/
def translate_with_gemini (gemini_api_key : Bool) (llm : String → Option String)
    (text_to_translate : String) : Option (String × String) :=
  if !gemini_api_key then none
  else
    match llm (prompt_message text_to_translate) with
    | none => none
    | some t =>
        let raw_response_text := pyStrip t
        let p := parseGeminiResponse raw_response_text
        if p.1 = "" ∨ p.2 = "" then none
        else some p

/-! ### HTTP endpoint (`translate_endpoint`, route `POST /translate-natural`) -/

/-- A JSON value, as far as the endpoint inspects it: the only shape the
code distinguishes is "a string" versus "anything else"
(`isinstance(data["text"], str)`). -/
inductive JsonVal where
  | jstr (s : String)
  | jnum (n : Int)
  | jbool (b : Bool)
  | jnull
  | jarr
  | jobj
deriving DecidableEq

/-- The body of an endpoint response. -/
inductive EndpointResp where
  | err (message : String)
  | success (original_text translated_korean romanization : String)
deriving DecidableEq

/-- The 400 message `"Field 'text' wajib ada."` (the quote character is
spelled via its code point). -/
def FIELD_TEXT_REQUIRED : String :=
  "Field " ++ String.singleton (Char.ofNat 39) ++ "text"
    ++ String.singleton (Char.ofNat 39) ++ " wajib ada."

/-- `translate_endpoint`.  `text_field` is the `"text"` member of the parsed
JSON body (`none` when absent, which also covers an unparseable body turned
into `{}` by `get_json(silent=True) or {}`).  Returns the
`(HTTP status, body)` pair together with a flag recording whether
`translate_with_gemini` was invoked.  The guard mirrors
`if "text" not in data or not isinstance(data["text"], str) or not
data["text"].strip()`. -/
def translate_endpoint (text_field : Option JsonVal) (gemini_api_key : Bool)
    (llm : String → Option String) : (Nat × EndpointResp) × Bool :=
  match text_field with
  | some (JsonVal.jstr s) =>
      if pyStrip s = "" then
        ((400, EndpointResp.err FIELD_TEXT_REQUIRED), false)
      else
        let text_to_translate := pyStrip s
        match translate_with_gemini gemini_api_key llm text_to_translate with
        | some (korean_text, romanization) =>
            if korean_text ≠ "" ∧ romanization ≠ "" then
              ((200, EndpointResp.success text_to_translate korean_text romanization), true)
            else
              ((500, EndpointResp.err "Gagal hubungi Gemini API."), true)
        | none => ((500, EndpointResp.err "Gagal hubungi Gemini API."), true)
  | _ => ((400, EndpointResp.err FIELD_TEXT_REQUIRED), false)

/-- The endpoint behaviour as the spec words it (§6): 400 with
`"Field 'text' wajib ada."` when `text` is missing, not a string, or blank;
200 with `status success`, the source text, the translated text and the
romanization when translation returns both fields; 500 with
`"Gagal hubungi Gemini API."` on translation failure.  Stated for
comparison with `translate_endpoint`; the spec's source text is the
trimmed submitted string (§3, `sourceText` is trimmed). -/
def translate_endpoint_contract (text_field : Option JsonVal)
    (gemini_api_key : Bool) (llm : String → Option String) :
    (Nat × EndpointResp) × Bool :=
  match text_field with
  | some (JsonVal.jstr s) =>
      if pyStrip s = "" then
        ((400, EndpointResp.err FIELD_TEXT_REQUIRED), false)
      else
        match translate_with_gemini gemini_api_key llm (pyStrip s) with
        | some (korean_text, romanization) =>
            ((200, EndpointResp.success (pyStrip s) korean_text romanization), true)
        | none => ((500, EndpointResp.err "Gagal hubungi Gemini API."), true)
  | _ => ((400, EndpointResp.err FIELD_TEXT_REQUIRED), false)

/-! ### Settings store (`user_settings`, `get_user_target`, `set_user_target`)

The Python dict `user_settings` maps a chat id to `{"target": value}`; the
only key ever stored in the inner dict is `"target"`, so the store is
embedded as a map from chat id to the stored target value. -/

def DEFAULT_TARGET : String := "south"

/-- The settings store: chat id to stored target, `none` when the chat id
has no entry. -/
def SettingsStore : Type := Int → Option String

/-- `get_user_target`: `user_settings.get(chat_id, {}).get("target",
DEFAULT_TARGET)`. -/
def get_user_target (user_settings : SettingsStore) (chat_id : Int) : String :=
  match user_settings chat_id with
  | some target => target
  | none => DEFAULT_TARGET

/-- `get_user_target` in state-passing form.  The source body is a single
`return` of two non-mutating `dict.get` calls, so the outgoing store is the
incoming one. -/
def get_user_target_state (user_settings : SettingsStore) (chat_id : Int) :
    String × SettingsStore :=
  (get_user_target user_settings chat_id, user_settings)

/-- `set_user_target`: `user_settings[chat_id] = {"target": value}` —
an unconditional overwrite of the entry for `chat_id`. -/
def set_user_target (user_settings : SettingsStore) (chat_id : Int)
    (value : String) : SettingsStore :=
  fun c => if c = chat_id then some value else user_settings c

/-! ### Processing queue (`processing_queue = queue.Queue()`)

`queue.Queue` is an unbounded FIFO queue; its state is embedded as the list
of pending messages, oldest first. -/

/-- A queued Telegram message, as far as the worker reads it. -/
structure QueuedMessage where
  chat_id : Int
  text : String
deriving DecidableEq

/-- `processing_queue.put(message)`: append at the tail. -/
def enqueue (q : List QueuedMessage) (m : QueuedMessage) : List QueuedMessage :=
  q ++ [m]

/-- A sequence of `put` calls in order. -/
def enqueueAll (q : List QueuedMessage) (ms : List QueuedMessage) :
    List QueuedMessage :=
  ms.foldl enqueue q

/-- `processing_queue.get()`: take the oldest element (`none` models the
blocking wait on an empty queue). -/
def dequeue (q : List QueuedMessage) :
    Option (QueuedMessage × List QueuedMessage) :=
  match q with
  | [] => none
  | m :: rest => some (m, rest)

/-- The sequence of messages obtained by dequeuing until empty. -/
def drain (q : List QueuedMessage) : List QueuedMessage :=
  match q with
  | [] => []
  | m :: rest => m :: drain rest

/-! ### Speech synthesis (`get_elevenlabs_tts_bytes`, `make_tts_korean_bytes`
and the TTS block of `queue_worker`) -/

/-- One chunk yielded by the ElevenLabs stream: the source only writes
chunks that are `bytes`/`bytearray` and skips anything else. -/
inductive Chunk where
  | chunkBytes (data : List Nat)
  | other
deriving DecidableEq

/-- The bytes accumulated in the `io.BytesIO` buffer by the chunk loop. -/
def collectChunks (chunks : List Chunk) : List Nat :=
  chunks.foldl
    (fun bio c =>
      match c with
      | Chunk.chunkBytes d => bio ++ d
      | Chunk.other => bio)
    []

/-- `get_elevenlabs_tts_bytes`.  `client_present` is whether
`elevenlabs_client` is non-`None`; `stream` is the outcome of
`text_to_speech.convert` (`none` when the SDK call raises).  `Except.error`
carries the message of the exception raised. -/
def get_elevenlabs_tts_bytes (client_present : Bool)
    (stream : Option (List Chunk)) : Except String (List Nat) :=
  if !client_present then Except.error "ElevenLabs client belum tersedia."
  else
    match stream with
    | none => Except.error "convert raised"
    | some chunks =>
        let bio := collectChunks chunks
        if bio.length = 0 then Except.error "Stream ElevenLabs kosong."
        else Except.ok bio

/-- The `try` body of the TTS block in `queue_worker`:
`if elevenlabs_client: get_elevenlabs_tts_bytes(kor_text) else: raise`. -/
def tts_attempt (elevenlabs_client : Bool) (stream : Option (List Chunk)) :
    Except String (List Nat) :=
  if elevenlabs_client then get_elevenlabs_tts_bytes elevenlabs_client stream
  else Except.error "ElevenLabs tidak aktif."

/-- An observable effect of processing one message: a Telegram text
message, a Telegram audio message, or the cooldown sleep (milliseconds). -/
inductive Effect where
  | sentMessage (chat_id : Int) (text : String)
  | sentAudio (chat_id : Int) (title performer : String)
  | slept (ms : Nat)
deriving DecidableEq

/-- The full TTS block of `queue_worker` on a given chat: returns
`(tts_bytes, performer)` as after the block, a flag set exactly when
control entered the `except` handler (the fallback path), and the effects
emitted (the `"❌ Error TTS"` message when the fallback also fails).
`gtts` is the outcome of `make_tts_korean_bytes` (`Except.error` when gTTS
raises, with the message of the exception). -/
def tts_block (elevenlabs_client : Bool) (stream : Option (List Chunk))
    (gtts : Except String (List Nat)) (chat_id : Int) :
    (Option (List Nat) × String) × Bool × List Effect :=
  match tts_attempt elevenlabs_client stream with
  | Except.ok b => ((some b, "ElevenLabs"), false, [])
  | Except.error _ =>
      match gtts with
      | Except.ok b => ((some b, "gTTS"), true, [])
      | Except.error e2 =>
          ((none, "TTS"), true,
            [Effect.sentMessage chat_id ("❌ Error TTS: " ++ e2)])

/-! ### Worker loop (`queue_worker`), per-message body -/

/-- The JSON body read by the worker from the endpoint response
(`data.get(...)` on each field). -/
structure RespBody where
  status : Option String
  message : Option String
  translated_korean : Option String
  romanization : Option String
deriving DecidableEq

/-- Outcome of the `requests.post(...)`/`raise_for_status()`/`.json()`
sequence: `raised` (with the exception text) when any of them raises —
including `raise_for_status` on a 400/500 response — otherwise the parsed
body. -/
inductive HttpOutcome where
  | raised (e : String)
  | ok (body : RespBody)
deriving DecidableEq

/-- Python `str(x)` for the `Option String` fields read with
`data.get("message")`: `None` prints as `"None"`. -/
def pyShowOpt (o : Option String) : String :=
  match o with
  | some s => s
  | none => "None"

/-- The environment of one `queue_worker` iteration: the outcomes of every
external call it makes, and the settings store as it stands when the reply
is built. -/
structure WorkerEnv where
  http : HttpOutcome
  elevenlabs_client : Bool
  stream : Option (List Chunk)
  gtts : Except String (List Nat)
  user_settings : SettingsStore
  send_text_ok : Bool
  send_audio_ok : Bool

/-- The reply text built by the worker (the f-string at the delivery step);
the target-locale label is read from the store via `get_user_target` at this
point. -/
def reply_text (user_settings : SettingsStore) (chat_id : Int)
    (kor_text pronunciation : String) : String :=
  "📘 Terjemahan (ID → Korea) [" ++ get_user_target user_settings chat_id
    ++ "]\n\n🔤 <b>Hangul:</b>\n" ++ kor_text
    ++ "\n\n🔠 <b>Romanisasi:</b>\n" ++ pronunciation ++ "\n"

/-- The body of one `queue_worker` iteration for one dequeued message,
as the list of effects it produces, in order.  The two `continue`
statements of the translation phase skip the trailing `time.sleep(1.5)`;
the delivery sends are wrapped in `try/except` whose handlers only print
(text) or send an error message (audio). -/
def process_message (env : WorkerEnv) (msg : QueuedMessage) : List Effect :=
  let chat_id := msg.chat_id
  match env.http with
  | HttpOutcome.raised e =>
      [Effect.sentMessage chat_id ("❌ Error terjemahan: " ++ e)]
  | HttpOutcome.ok body =>
      if body.status = some "error" then
        [Effect.sentMessage chat_id ("❌ Error API: " ++ pyShowOpt body.message)]
      else
        let kor_text := (body.translated_korean).getD ""
        let pronunciation := (body.romanization).getD ""
        let tts := tts_block env.elevenlabs_client env.stream env.gtts chat_id
        let tts_bytes := tts.1.1
        let performer := tts.1.2
        let ttsEffects := tts.2.2
        let reply := reply_text env.user_settings chat_id kor_text pronunciation
        let textEffects :=
          if env.send_text_ok then [Effect.sentMessage chat_id reply] else []
        let audioEffects :=
          match tts_bytes with
          | some _ =>
              if env.send_audio_ok then
                [Effect.sentAudio chat_id "Pengucapan Korea" performer]
              else
                [Effect.sentMessage chat_id "❌ Gagal kirim audio: send_audio raised"]
          | none => []
        ttsEffects ++ textEffects ++ audioEffects ++ [Effect.slept 1500]

/-- Whether the translation phase of the iteration succeeded, i.e. neither
`continue` was taken: the HTTP call returned a body whose `status` is not
`"error"`. -/
def translationOk (env : WorkerEnv) : Bool :=
  match env.http with
  | HttpOutcome.raised _ => false
  | HttpOutcome.ok body => decide (body.status ≠ some "error")

/-- The `kor_text` the worker extracts when translation succeeded. -/
def workerKorText (env : WorkerEnv) : String :=
  match env.http with
  | HttpOutcome.raised _ => ""
  | HttpOutcome.ok body => (body.translated_korean).getD ""

/-- The `pronunciation` the worker extracts when translation succeeded. -/
def workerPronunciation (env : WorkerEnv) : String :=
  match env.http with
  | HttpOutcome.raised _ => ""
  | HttpOutcome.ok body => (body.romanization).getD ""

/-- Recognizer for the cooldown effect. -/
def isSleepEffect (e : Effect) : Bool :=
  match e with
  | Effect.slept _ => true
  | _ => false

/-- Recognizer for audio-message effects. -/
def isAudioEffect (e : Effect) : Bool :=
  match e with
  | Effect.sentAudio _ _ _ => true
  | _ => false

/-! ### Concrete test fixtures -/

/-- An LLM oracle answering with a well-formed two-label response. -/
def goodLlm : String → Option String :=
  fun _ => some "Teks Korea: 안녕\nRomanisasi: annyeong"

/-- A worker iteration where the HTTP call to the local endpoint raised
(translation failure handled by the first `except`/`continue`). -/
def c1Env : WorkerEnv :=
  { http := HttpOutcome.raised "requests.post raised"
    elevenlabs_client := false
    stream := none
    gtts := Except.error "gtts down"
    user_settings := fun _ => none
    send_text_ok := true
    send_audio_ok := true }

def c1Msg : QueuedMessage := { chat_id := 1, text := "hi" }

/-- A worker iteration where translation succeeded but both synthesis
providers fail: ElevenLabs is configured yet its `convert` call raises, and
gTTS raises as well. -/
def c2Env : WorkerEnv :=
  { http := HttpOutcome.ok
      { status := some "success", message := none,
        translated_korean := some "안녕", romanization := some "annyeong" }
    elevenlabs_client := true
    stream := none
    gtts := Except.error "gTTS raised"
    user_settings := fun _ => none
    send_text_ok := true
    send_audio_ok := true }

def c2Msg : QueuedMessage := { chat_id := 1, text := "hi" }

/-- A worker iteration delivering to chat 5 after `set_user_target` stored
`"north"` for that chat (post-enqueue settings change). -/
def c9Env : WorkerEnv :=
  { http := HttpOutcome.ok
      { status := some "success", message := none,
        translated_korean := some "안녕", romanization := some "annyeong" }
    elevenlabs_client := false
    stream := none
    gtts := Except.ok [1, 2]
    user_settings := set_user_target (fun _ => none) 5 "north"
    send_text_ok := true
    send_audio_ok := true }

def c9Msg : QueuedMessage := { chat_id := 5, text := "hi" }

/-! ## Helper lemmas -/

theorem translate_with_gemini_some_nonempty {gemini_api_key : Bool}
    {llm : String → Option String} {text_to_translate k r : String}
    (h : translate_with_gemini gemini_api_key llm text_to_translate = some (k, r)) :
    k ≠ "" ∧ r ≠ "" := by
  unfold translate_with_gemini at h
  cases gemini_api_key with
  | false => simp at h
  | true =>
      simp only [Bool.not_true, Bool.false_eq_true, if_false] at h
      cases hl : llm (prompt_message text_to_translate) with
      | none => rw [hl] at h; cases h
      | some t =>
          rw [hl] at h
          dsimp only at h
          split at h
          · cases h
          · next hcond =>
              injection h with h
              rw [h] at hcond
              push_neg at hcond
              exact hcond

theorem get_set_same (user_settings : SettingsStore) (chat_id : Int)
    (value : String) :
    get_user_target (set_user_target user_settings chat_id value) chat_id = value := by
  unfold get_user_target set_user_target
  simp

theorem translationOk_iff (env : WorkerEnv) :
    translationOk env = true ↔
      ∃ body, env.http = HttpOutcome.ok body ∧ body.status ≠ some "error" := by
  unfold translationOk
  cases henv : env.http <;> simp [henv]

theorem tts_block_no_sleep (elevenlabs_client : Bool)
    (stream : Option (List Chunk)) (gtts : Except String (List Nat))
    (chat_id : Int) :
    ((tts_block elevenlabs_client stream gtts chat_id).2.2).filter isSleepEffect
      = [] := by
  unfold tts_block
  cases tts_attempt elevenlabs_client stream with
  | ok b => rfl
  | error e => cases gtts <;> rfl

theorem tts_block_both_fail (elevenlabs_client : Bool)
    (stream : Option (List Chunk)) (gtts : Except String (List Nat))
    (chat_id : Int) (e e2 : String)
    (he : tts_attempt elevenlabs_client stream = Except.error e)
    (hg : gtts = Except.error e2) :
    tts_block elevenlabs_client stream gtts chat_id =
      ((none, "TTS"), true,
        [Effect.sentMessage chat_id ("❌ Error TTS: " ++ e2)]) := by
  unfold tts_block
  rw [he, hg]

theorem tts_attempt_error_iff (elevenlabs_client : Bool)
    (stream : Option (List Chunk)) :
    (∃ e, tts_attempt elevenlabs_client stream = Except.error e) ↔
      (elevenlabs_client = false ∨ stream = none ∨
        ∃ chunks, stream = some chunks ∧ collectChunks chunks = []) := by
  unfold tts_attempt get_elevenlabs_tts_bytes
  cases elevenlabs_client with
  | false => simp
  | true =>
      cases stream with
      | none => simp
      | some chunks =>
          simp only [Bool.not_true, Bool.false_eq_true, if_false]
          by_cases hl : (collectChunks chunks).length = 0

          · simp [hl, List.length_eq_zero.mp hl]
          · simp [hl]
            intro h
            exact hl (by rw [h]; rfl)

theorem process_message_ok (env : WorkerEnv) (msg : QueuedMessage)
    (body : RespBody) (hb : env.http = HttpOutcome.ok body)
    (hs : body.status ≠ some "error") :
    process_message env msg =
      (tts_block env.elevenlabs_client env.stream env.gtts msg.chat_id).2.2
      ++ (if env.send_text_ok then
            [Effect.sentMessage msg.chat_id
              (reply_text env.user_settings msg.chat_id
                (body.translated_korean.getD "") (body.romanization.getD ""))]
          else [])
      ++ (match (tts_block env.elevenlabs_client env.stream env.gtts msg.chat_id).1.1 with
          | some _ =>
              if env.send_audio_ok then
                [Effect.sentAudio msg.chat_id "Pengucapan Korea"
                  (tts_block env.elevenlabs_client env.stream env.gtts msg.chat_id).1.2]
              else
                [Effect.sentMessage msg.chat_id "❌ Gagal kirim audio: send_audio raised"]
          | none => [])
      ++ [Effect.slept 1500] := by
  unfold process_message
  rw [hb]
  dsimp only
  rw [if_neg hs]

theorem drain_eq_self (q : List QueuedMessage) : drain q = q := by
  induction q with
  | nil => rfl
  | cons m rest ih => unfold drain; rw [ih]

theorem enqueueAll_eq_append (q ms : List QueuedMessage) :
    enqueueAll q ms = q ++ ms := by
  induction ms generalizing q with
  | nil => simp [enqueueAll]
  | cons m rest ih =>
      unfold enqueueAll at ih ⊢
      rw [List.foldl_cons, ih]
      simp [enqueue]

/-! ## Claim theorems -/

/-- C1, counterexample: a message whose translation phase failed (the HTTP
call raised — a handled failure, the worker notifies the chat and moves on)
is processed WITHOUT the cooldown sleep: the `continue` in the `except`
branch skips the trailing `time.sleep(1.5)`, contradicting the claim that
the cooldown follows every handled failure. -/
theorem cooldown_skipped_on_translation_failure_cex :
    process_message c1Env c1Msg =
      [Effect.sentMessage 1 "❌ Error terjemahan: requests.post raised"] ∧
    (process_message c1Env c1Msg).filter isSleepEffect = [] :=
  ⟨rfl, rfl⟩

/-- C1, amended: the fixed 1.5 s cooldown is applied exactly after the
messages whose translation phase succeeded (including synthesis or delivery
failures); after a translation failure the worker dequeues the next message
immediately, with no cooldown.  When applied, it is always the same
constant. -/
theorem cooldown_applied_iff_translation_ok (env : WorkerEnv)
    (msg : QueuedMessage) :
    (process_message env msg).filter isSleepEffect =
      (if translationOk env then [Effect.slept 1500] else []) := by
  cases henv : env.http with
  | raised e =>
      unfold process_message translationOk
      rw [henv]
      rfl
  | ok body =>
      by_cases hs : body.status = some "error"
      · unfold process_message translationOk
        rw [henv]
        dsimp only
        rw [if_pos hs]
        simp [hs, isSleepEffect]
      · have ht : translationOk env = true :=
          (translationOk_iff env).mpr ⟨body, henv, hs⟩
        rw [process_message_ok env msg body henv hs, ht]
        rcases hopt :
            (tts_block env.elevenlabs_client env.stream env.gtts msg.chat_id).1.1
          with _ | b <;>
          cases hta : env.send_text_ok <;> cases haa : env.send_audio_ok <;>
          simp [List.filter_append, tts_block_no_sleep, isSleepEffect, hopt,
            hta, haa, List.filter]

/-- C2, counterexample: with translation succeeded and both synthesis
providers failing, the worker sends an "❌ Error TTS" chat message — an
error IS shown to the user, contradicting "no error shown to the user
beyond the omission of audio". -/
theorem tts_error_shown_to_user_cex :
    translationOk c2Env = true ∧
    Effect.sentMessage 1 ("❌ Error TTS: " ++ "gTTS raised") ∈
      process_message c2Env c2Msg := by
  exact ⟨by decide, by decide⟩

/-- C2, amended: for every message whose translation succeeded, if both
speech-synthesis providers fail the worker still attempts to deliver the
text reply and sends no audio message, but it does notify the user with an
"❌ Error TTS" chat message (beyond the omission of audio). -/
theorem both_tts_fail_text_delivered_no_audio (env : WorkerEnv)
    (msg : QueuedMessage) (e2 : String)
    (htr : translationOk env = true)
    (hp : ∃ e, tts_attempt env.elevenlabs_client env.stream = Except.error e)
    (hg : env.gtts = Except.error e2)
    (hsend : env.send_text_ok = true) :
    Effect.sentMessage msg.chat_id
        (reply_text env.user_settings msg.chat_id (workerKorText env)
          (workerPronunciation env))
      ∈ process_message env msg ∧
    (process_message env msg).filter isAudioEffect = [] ∧
    Effect.sentMessage msg.chat_id ("❌ Error TTS: " ++ e2) ∈
      process_message env msg := by
  obtain ⟨body, hb, hs⟩ := (translationOk_iff env).mp htr
  obtain ⟨e, he⟩ := hp
  have htb := tts_block_both_fail env.elevenlabs_client env.stream env.gtts
    msg.chat_id e e2 he hg
  have hk : workerKorText env = body.translated_korean.getD "" := by
    unfold workerKorText; rw [hb]
  have hpr : workerPronunciation env = body.romanization.getD "" := by
    unfold workerPronunciation; rw [hb]
  rw [process_message_ok env msg body hb hs, htb, hk, hpr, hsend]
  simp [isAudioEffect, List.filter_append, List.filter]

/-- C2, witness for the amended theorem: concrete run with ElevenLabs
configured but its stream call raising, and gTTS raising too. -/
theorem both_tts_fail_text_delivered_no_audio_witness :
    translationOk c2Env = true ∧
    (Effect.sentMessage c2Msg.chat_id
        (reply_text c2Env.user_settings c2Msg.chat_id (workerKorText c2Env)
          (workerPronunciation c2Env))
      ∈ process_message c2Env c2Msg ∧
    (process_message c2Env c2Msg).filter isAudioEffect = [] ∧
    Effect.sentMessage c2Msg.chat_id ("❌ Error TTS: " ++ "gTTS raised") ∈
      process_message c2Env c2Msg) :=
  ⟨by decide,
    both_tts_fail_text_delivered_no_audio c2Env c2Msg "gTTS raised"
      (by decide) ⟨"convert raised", rfl⟩ rfl rfl⟩

/-- C3: for every non-empty input text, `translate_with_gemini` returns
either a failure (`none`) or a pair with both the translated text and the
romanization non-empty — never exactly one of the two populated. -/
theorem translate_all_or_nothing (gemini_api_key : Bool)
    (llm : String → Option String) (text_to_translate : String)
    (_h : text_to_translate ≠ "") :
    translate_with_gemini gemini_api_key llm text_to_translate = none ∨
      ∃ k r, translate_with_gemini gemini_api_key llm text_to_translate
          = some (k, r) ∧ k ≠ "" ∧ r ≠ "" := by
  cases ht : translate_with_gemini gemini_api_key llm text_to_translate with
  | none => exact Or.inl rfl
  | some p =>
      obtain ⟨k, r⟩ := p
      obtain ⟨hk, hr⟩ := translate_with_gemini_some_nonempty ht
      exact Or.inr ⟨k, r, rfl, hk, hr⟩

/-- C3, witness: a concrete non-empty input against a well-formed LLM
response. -/
theorem translate_all_or_nothing_witness :
    ("halo" : String) ≠ "" ∧
    (translate_with_gemini true goodLlm "halo" = none ∨
      ∃ k r, translate_with_gemini true goodLlm "halo" = some (k, r)
        ∧ k ≠ "" ∧ r ≠ "") :=
  ⟨by decide, translate_all_or_nothing true goodLlm "halo" (by decide)⟩

/-- C4: the fallback provider is invoked if and only if the primary is
unconfigured (`elevenlabs_client` is `None`), its stream call raises, or
its result stream collects to zero bytes (an empty stream counts as a
failure, not a silent success). -/
theorem fallback_invoked_iff_primary_failure (elevenlabs_client : Bool)
    (stream : Option (List Chunk)) (gtts : Except String (List Nat))
    (chat_id : Int) :
    (tts_block elevenlabs_client stream gtts chat_id).2.1 = true ↔
      (elevenlabs_client = false ∨ stream = none ∨
        ∃ chunks, stream = some chunks ∧ collectChunks chunks = []) := by
  rw [← tts_attempt_error_iff]
  unfold tts_block
  cases he : tts_attempt elevenlabs_client stream with
  | ok b => simp
  | error e => cases gtts <;> simp

/-- C5: the endpoint behaves exactly as the spec contract: 400 with
"Field ... wajib ada." when the text field is missing, not a string or
blank; 200 with the source text, translated text and romanization when
translation returns both fields; 500 with "Gagal hubungi Gemini API."
on translation failure. -/
theorem translate_endpoint_meets_contract (text_field : Option JsonVal)
    (gemini_api_key : Bool) (llm : String → Option String) :
    translate_endpoint text_field gemini_api_key llm =
      translate_endpoint_contract text_field gemini_api_key llm := by
  cases text_field with
  | none => rfl
  | some v =>
      cases v with
      | jstr s =>
          simp only [translate_endpoint, translate_endpoint_contract]
          by_cases hs : pyStrip s = ""
          · rw [if_pos hs, if_pos hs]
          · rw [if_neg hs, if_neg hs]
            rcases ht : translate_with_gemini gemini_api_key llm (pyStrip s)
              with _ | ⟨k, r⟩
            · rfl
            · obtain ⟨hk, hr⟩ := translate_with_gemini_some_nonempty ht
              simp [hk, hr]
      | jnum n => rfl
      | jbool b => rfl
      | jnull => rfl
      | jarr => rfl
      | jobj => rfl

/-- C6: messages enqueued before the worker drains are dequeued in exactly
the order they were enqueued — strict FIFO. -/
theorem fifo_dequeue_order (ms : List QueuedMessage) :
    drain (enqueueAll [] ms) = ms := by
  simp [enqueueAll_eq_append, drain_eq_self]

/-- C7: for a chat id with no entry in the settings store, `get_user_target`
returns the default "south" and leaves the store unchanged. -/
theorem get_target_default_for_unseen (user_settings : SettingsStore)
    (chat_id : Int) (h : user_settings chat_id = none) :
    get_user_target_state user_settings chat_id = ("south", user_settings) := by
  unfold get_user_target_state get_user_target
  rw [h]
  rfl

/-- C7, witness: the empty store at chat id 42. -/
theorem get_target_default_for_unseen_witness :
    ((fun _ => none : SettingsStore) 42 = none) ∧
    get_user_target_state (fun _ => none : SettingsStore) 42
      = ("south", (fun _ => none : SettingsStore)) :=
  ⟨rfl, get_target_default_for_unseen (fun _ => none) 42 rfl⟩

/-- C8: `set_user_target` is idempotent — setting the same valid locale
twice for a chat id leaves the store in the same state as setting it
once. -/
theorem set_target_idempotent (user_settings : SettingsStore) (chat_id : Int)
    (value : String) (_hv : value = "south" ∨ value = "north") :
    set_user_target (set_user_target user_settings chat_id value) chat_id value
      = set_user_target user_settings chat_id value := by
  funext c
  unfold set_user_target
  by_cases hc : c = chat_id <;> simp [hc]

/-- C8, witness: setting "north" twice for chat id 7 on the empty store. -/
theorem set_target_idempotent_witness :
    (("north" : String) = "south" ∨ ("north" : String) = "north") ∧
    set_user_target (set_user_target (fun _ => none : SettingsStore) 7 "north")
        7 "north"
      = set_user_target (fun _ => none : SettingsStore) 7 "north" :=
  ⟨Or.inr rfl, set_target_idempotent (fun _ => none) 7 "north" (Or.inr rfl)⟩

/-- C9: the target-locale label in the delivered reply is read from the
settings store at delivery time: if the store holds `v` for the chat when
the worker builds the reply (for example after a post-enqueue
`set_user_target`), the reply carries the label `v`. -/
theorem reply_label_read_at_delivery (s : SettingsStore) (c : Int)
    (v : String) (env : WorkerEnv) (msg : QueuedMessage)
    (hchat : msg.chat_id = c)
    (hset : env.user_settings = set_user_target s c v)
    (htr : translationOk env = true)
    (hsend : env.send_text_ok = true) :
    Effect.sentMessage c
        ("📘 Terjemahan (ID → Korea) [" ++ v ++ "]\n\n🔤 <b>Hangul:</b>\n"
          ++ workerKorText env ++ "\n\n🔠 <b>Romanisasi:</b>\n"
          ++ workerPronunciation env ++ "\n")
      ∈ process_message env msg := by
  obtain ⟨body, hb, hs⟩ := (translationOk_iff env).mp htr
  have hk : workerKorText env = body.translated_korean.getD "" := by
    unfold workerKorText; rw [hb]
  have hpr : workerPronunciation env = body.romanization.getD "" := by
    unfold workerPronunciation; rw [hb]
  have hreply : reply_text env.user_settings c
      (body.translated_korean.getD "") (body.romanization.getD "")
      = "📘 Terjemahan (ID → Korea) [" ++ v ++ "]\n\n🔤 <b>Hangul:</b>\n"
          ++ workerKorText env ++ "\n\n🔠 <b>Romanisasi:</b>\n"
          ++ workerPronunciation env ++ "\n" := by
    unfold reply_text
    rw [hset, get_set_same, hk, hpr]
  rw [process_message_ok env msg body hb hs, hchat, hreply]
  simp [hsend, List.mem_append]

/-- C9, witness: chat id 5 whose store entry was overwritten to "north"
before delivery. -/
theorem reply_label_read_at_delivery_witness :
    translationOk c9Env = true ∧
    Effect.sentMessage 5
        ("📘 Terjemahan (ID → Korea) [" ++ "north" ++ "]\n\n🔤 <b>Hangul:</b>\n"
          ++ workerKorText c9Env ++ "\n\n🔠 <b>Romanisasi:</b>\n"
          ++ workerPronunciation c9Env ++ "\n")
      ∈ process_message c9Env c9Msg :=
  ⟨by decide,
    reply_label_read_at_delivery (fun _ => none) 5 "north" c9Env c9Msg
      rfl rfl (by decide) rfl⟩

/-- C10: a JSON body whose "text" member is present but not a string gets
the same 400 response as a missing or blank field, and translation is never
invoked. -/
theorem nonstring_text_field_rejected (v : JsonVal) (gemini_api_key : Bool)
    (llm : String → Option String) (h : ∀ s, v ≠ JsonVal.jstr s) :
    translate_endpoint (some v) gemini_api_key llm =
      ((400, EndpointResp.err FIELD_TEXT_REQUIRED), false) := by
  cases v with
  | jstr s => exact absurd rfl (h s)
  | jnum _ => rfl
  | jbool b => rfl
  | jnull => rfl
  | jarr => rfl
  | jobj => rfl

/-- C10, witness: a numeric "text" member. -/
theorem nonstring_text_field_rejected_witness :
    (∀ s, JsonVal.jnum 5 ≠ JsonVal.jstr s) ∧
    translate_endpoint (some (JsonVal.jnum 5)) true goodLlm =
      ((400, EndpointResp.err FIELD_TEXT_REQUIRED), false) :=
  ⟨fun _ h => JsonVal.noConfusion h,
    nonstring_text_field_rejected (JsonVal.jnum 5) true goodLlm
      (fun _ h => JsonVal.noConfusion h)⟩

end BotTelegram
